import Mathlib

/-!
A shallow embedding of the catnip TCP peer and engine
(`src/rust/catnip/src/protocols/tcp/peer/mod.rs`, `src/rust/catnip/src/engine.rs`),
together with theorems checking the natural-language specification against it.

Machine integers are modelled as `Nat` with explicit `% 2^32` where the source
uses `Wrapping<u32>`.  Fallible Rust functions returning `Result` are modelled
with an `Outcome` type; Rust panics (`unimplemented!`, failed `assert!`,
`todo!`) are modelled by the `panicked` constructor, which carries the state of
the receiver at the moment of the panic (mutations performed through `&mut
self` before the panic persist).
-/

/-- Error type mirroring the `Fail` enum variants used by the embedded code
(`Fail::Malformed`, `Fail::Misdelivered`, `Fail::ResourceExhausted`), plus a
variant for the `u32::try_from` conversion failure propagated by `?` and one
for unsupported dispatch cases handled by excluded collaborators. -/
inductive Fail where
  | Malformed (details : String)
  | Misdelivered
  | ResourceExhausted (details : String)
  | TryFromIntError
  | Unsupported (details : String)
deriving DecidableEq, Repr

/-- Result of running an embedded Rust method on a receiver state `σ`:
`ok` carries the updated state, `err` carries the error and the receiver state
at the `return Err(..)` point, `panicked` carries the panic message and the
receiver state at the panic point. -/
inductive Outcome (σ : Type) where
  | ok (s : σ)
  | err (f : Fail) (s : σ)
  | panicked (msg : String) (s : σ)
deriving DecidableEq, Repr

/-- The receiver state carried by any outcome. -/
def stateOf {σ : Type} : Outcome σ → σ
  | .ok s => s
  | .err _ s => s
  | .panicked _ s => s

/-- Whether the outcome is `Ok(..)` in Rust terms. -/
def Outcome.isOk {σ : Type} : Outcome σ → Bool
  | .ok _ => true
  | _ => false

/-- Whether the outcome is a panic. -/
def Outcome.isPanicked {σ : Type} : Outcome σ → Bool
  | .panicked _ _ => true
  | _ => false

/-- Rust `std::net::Ipv4Addr::is_broadcast`: the limited-broadcast address
255.255.255.255, as a 32-bit numeric value. -/
def isBroadcastIp (a : Nat) : Bool := a == 4294967295

/-- Rust `std::net::Ipv4Addr::is_multicast`: the class-D range
224.0.0.0 .. 239.255.255.255. -/
def isMulticastIp (a : Nat) : Bool := decide (3758096384 ≤ a ∧ a < 4026531840)

/-- Rust `std::net::Ipv4Addr::is_unspecified`: 0.0.0.0. -/
def isUnspecifiedIp (a : Nat) : Bool := a == 0

/-- Modelled from the spec: `ip::Port::first_private_port()` is not under
`src/`; the spec describes a reserved private/ephemeral subrange of high ports
up to 65535, modelled here as the standard ephemeral range starting at 49152. -/
def first_private_port : Nat := 49152

/-- Modelled from the spec: `ip::Port::is_private` is not under `src/`; a port
is private when it lies in the ephemeral subrange. -/
def isPrivatePort (p : Nat) : Bool := decide (first_private_port ≤ p)

/-- Modelled from the spec: `ip::Port::try_from(u16)` (not under `src/`) fails
exactly on port zero, which is why `dest_port()`/`src_port()` on a decoded
header yield `Option`s that are `None` for a zero wire value. -/
def portFromRaw (p : Nat) : Option Nat := if p == 0 then none else some p

/-- Fields of a decoded TCP header that the peer reads: raw 16-bit ports
(zero allowed on the wire), the 32-bit sequence number, and the SYN/RST flags. -/
structure TcpHeaderData where
  src_port : Nat
  dest_port : Nat
  seq_num : Nat
  syn : Bool
  rst : Bool
deriving DecidableEq, Repr

/-- A decoded TCP segment: its header and the length of its payload text. -/
structure TcpSegData where
  header : TcpHeaderData
  textLen : Nat
deriving DecidableEq, Repr

/-- An IPv4 datagram as seen by `TcpPeer::receive`: source and destination
addresses from the IPv4 header, the carried protocol number, and the TCP
payload (`none` models a payload on which `TcpSegmentDecoder::try_from`
fails). -/
structure Ipv4Datagram where
  src_addr : Nat
  dest_addr : Nat
  protocol : Nat
  payload : Option TcpSegData
deriving DecidableEq, Repr

/-- Modelled from the spec: `TcpSegmentDecoder::try_from` is not under `src/`;
it decodes the TCP payload of a datagram or fails with a malformed-segment
error. -/
def TcpSegmentDecoder.try_from (d : Ipv4Datagram) : Except Fail TcpSegData :=
  match d.payload with
  | some seg => .ok seg
  | none => .error (Fail.Malformed "failed to decode TCP segment")

/-- An outbound segment under construction, mirroring the `TcpSegment` builder
(`TcpSegment::default()` plus the chained setter methods used in `peer/mod.rs`). -/
structure TcpSegment where
  src_ipv4_addr : Option Nat := none
  src_port : Option Nat := none
  dest_ipv4_addr : Option Nat := none
  dest_port : Option Nat := none
  seq_num : Nat := 0
  ack_num : Nat := 0
  syn : Bool := false
  rst : Bool := false
  mss : Option Nat := none
deriving DecidableEq, Repr

/-- Builder method `TcpSegment::dest_ipv4_addr`. -/
def TcpSegment.destIpv4Addr (s : TcpSegment) (a : Nat) : TcpSegment :=
  { s with dest_ipv4_addr := some a }

/-- Builder method `TcpSegment::dest_port`. -/
def TcpSegment.destPort (s : TcpSegment) (p : Nat) : TcpSegment :=
  { s with dest_port := some p }

/-- Builder method `TcpSegment::src_ipv4_addr`. -/
def TcpSegment.srcIpv4Addr (s : TcpSegment) (a : Nat) : TcpSegment :=
  { s with src_ipv4_addr := some a }

/-- Builder method `TcpSegment::src_port`. -/
def TcpSegment.srcPort (s : TcpSegment) (p : Nat) : TcpSegment :=
  { s with src_port := some p }

/-- Builder method `TcpSegment::seq_num`. -/
def TcpSegment.seqNum (s : TcpSegment) (n : Nat) : TcpSegment :=
  { s with seq_num := n % 4294967296 }

/-- Builder method `TcpSegment::ack_num`. -/
def TcpSegment.ackNum (s : TcpSegment) (n : Nat) : TcpSegment :=
  { s with ack_num := n % 4294967296 }

/-- Builder method `TcpSegment::rst`. -/
def TcpSegment.setRst (s : TcpSegment) : TcpSegment := { s with rst := true }

/-- Builder method `TcpSegment::syn`. -/
def TcpSegment.setSyn (s : TcpSegment) : TcpSegment := { s with syn := true }

/-- Builder method `TcpSegment::mss`. -/
def TcpSegment.setMss (s : TcpSegment) (m : Nat) : TcpSegment :=
  { s with mss := some m }

/-- `DEFAULT_MSS` from the segment module (not under `src/`; the canonical
value used by the codebase). -/
def DEFAULT_MSS : Nat := 536

/-- The `TcpError` variant the peer emits (`TcpError::ConnectionRefused`). -/
inductive TcpError where
  | ConnectionRefused
deriving DecidableEq, Repr

/-- The effects the peer can emit through `rt.emit_effect`. -/
inductive Effect where
  | tcpError (e : TcpError)
deriving DecidableEq, Repr

/-- An endpoint: `(IPv4 address, port)`, mirroring `ipv4::Endpoint`. -/
structure Endpoint where
  address : Nat
  port : Nat
deriving DecidableEq, Repr

/-- A connection identifier: `(local endpoint, remote endpoint)`. -/
structure TcpConnectionId where
  loc : Endpoint
  remote : Endpoint
deriving DecidableEq, Repr

/-- Modelled from the spec: the `connection` module is not under `src/`; a
connection carries its identifier (the only part of its state the embedded
operations touch). -/
structure TcpConnection where
  cxn_id : TcpConnectionId
deriving DecidableEq, Repr

/-- Lookup in an association list, mirroring `HashMap::get`. -/
def assocLookup {α β : Type} [DecidableEq α] (m : List (α × β)) (k : α) : Option β :=
  match m with
  | [] => none
  | (k', v) :: rest => if k = k' then some v else assocLookup rest k

/-- Insert into an association list, mirroring `HashMap::insert`: returns the
previous value for the key (if any) together with the updated map. -/
def assocInsert {α β : Type} [DecidableEq α] (m : List (α × β)) (k : α) (v : β) :
    Option β × List (α × β) :=
  match m with
  | [] => (none, [(k, v)])
  | (k', v') :: rest =>
    if k = k' then (some v', (k, v) :: rest)
    else
      let (old, rest') := assocInsert rest k v
      (old, (k', v') :: rest')

/-- Insert into a list-backed set, mirroring `HashSet::replace`: membership is
unchanged when the element is already present, otherwise the element is added. -/
def setReplace (l : List Nat) (p : Nat) : List Nat :=
  if p ∈ l then l else l ++ [p]

/-- State of `TcpPeer`: the fields of the Rust struct, plus the runtime data it
reads (`options.my_ipv4_addr`, the ISN secret) and the effects it has emitted
through the runtime.  `async_work` records the outbound segments enrolled via
`self.async_work.add(self.rt.cast(..))`. -/
structure TcpPeer where
  active_connections : List (Endpoint × TcpConnection)
  available_private_ports : List Nat
  connections : List (TcpConnectionId × TcpConnection)
  listening_on_ports : List Nat
  open_ports : List Nat
  my_ipv4_addr : Nat
  isn_secret : Nat
  async_work : List TcpSegment
  effects : List Effect
deriving DecidableEq, Repr

/-- Modelled from the spec: `IsnGenerator::next` is not under `src/`; it
derives an ISN from the per-stack secret and the connection identity. -/
def IsnGenerator.next (secret : Nat) (id : TcpConnectionId) : Nat :=
  (secret + id.loc.address * 65536 + id.loc.port
     + id.remote.address * 7 + id.remote.port * 13) % 4294967296

/-- `TcpPeer::new`: all tables start empty; the private-port pool is the list
of ports `first_private_port .. 65534` after the run-time shuffle, which is
passed in here as `shuffled` (the `rand` shuffle is not under `src/`; its
contract is that `shuffled` is a permutation of the unshuffled list). -/
def TcpPeer.new (shuffled : List Nat) (myAddr : Nat) (secret : Nat) : TcpPeer :=
  { active_connections := []
    available_private_ports := shuffled
    connections := []
    listening_on_ports := []
    open_ports := []
    my_ipv4_addr := myAddr
    isn_secret := secret
    async_work := []
    effects := [] }

/-- The unshuffled pool contents built by `TcpPeer::new`:
`for i in first_private_port..65535 take Port::try_from(i)`. -/
def initialPrivatePorts : List Nat :=
  List.range' first_private_port (65535 - first_private_port)

/-- `TcpPeer::receive`, translated clause by clause from `peer/mod.rs` lines
68-140: decode the segment; reject broadcast/multicast/unspecified sources as
malformed; reject a zero destination port as malformed; if the destination
port is open, an RST emits a `ConnectionRefused` effect and anything else hits
`unimplemented!()`; if the destination port is not open, reject a zero source
port as malformed and otherwise enqueue an RST reply whose ACK number is the
segment's sequence number plus its text length (plus one if SYN), computed in
`Wrapping<u32>` arithmetic. -/
def TcpPeer.receive (s : TcpPeer) (datagram : Ipv4Datagram) : Outcome TcpPeer :=
  match TcpSegmentDecoder.try_from datagram with
  | .error f => .err f s
  | .ok seg =>
    let remote_ipv4_addr := datagram.src_addr
    if isBroadcastIp remote_ipv4_addr || isMulticastIp remote_ipv4_addr
        || isUnspecifiedIp remote_ipv4_addr then
      .err (Fail.Malformed "only unicast addresses are supported by TCP") s
    else
      match portFromRaw seg.header.dest_port with
      | none => .err (Fail.Malformed "destination port is zero") s
      | some local_port =>
        if local_port ∈ s.open_ports then
          if seg.header.rst then
            .ok { s with effects := s.effects ++ [Effect.tcpError TcpError.ConnectionRefused] }
          else
            .panicked "not implemented" s
        else
          match portFromRaw seg.header.src_port with
          | none => .err (Fail.Malformed "source port is zero") s
          | some remote_port =>
            if seg.textLen < 4294967296 then
              let ack0 := (seg.header.seq_num + seg.textLen) % 4294967296
              let ack_num := if seg.header.syn then (ack0 + 1) % 4294967296 else ack0
              .ok { s with async_work := s.async_work ++
                [(({} : TcpSegment)).destIpv4Addr remote_ipv4_addr
                   |>.destPort remote_port
                   |>.srcPort local_port
                   |>.ackNum ack_num
                   |>.setRst] }
            else
              .err Fail.TryFromIntError s

/-- `TcpPeer::acquire_private_port`: pop the front of the pool, or fail with
`ResourceExhausted` when it is empty. -/
def TcpPeer.acquire_private_port (s : TcpPeer) : Except Fail (Nat × TcpPeer) :=
  match s.available_private_ports with
  | [] => .error (Fail.ResourceExhausted "no more private ports")
  | p :: rest => .ok (p, { s with available_private_ports := rest })

/-- `TcpPeer::release_private_port`: `assert!(port.is_private())`, then push
the port to the back of the pool. -/
def TcpPeer.release_private_port (s : TcpPeer) (port : Nat) : Outcome TcpPeer :=
  if isPrivatePort port then
    .ok { s with available_private_ports := s.available_private_ports ++ [port] }
  else
    .panicked "assertion failed: port.is_private()" s

/-- `TcpPeer::start_active_connection`, translated from `peer/mod.rs` lines
146-185: acquire a private port; build the connection id from
`options.my_ipv4_addr` and the remote endpoint; generate the ISN; insert the
new connection into `active_connections` keyed by the remote endpoint,
asserting no previous entry existed; insert the local port into `open_ports`
via `HashSet::replace`, asserting it was absent; finally enroll the coroutine
that casts the initial SYN segment. -/
def TcpPeer.start_active_connection (s : TcpPeer) (remote_endpoint : Endpoint) :
    Outcome TcpPeer :=
  match TcpPeer.acquire_private_port s with
  | .error f => .err f s
  | .ok (local_port, s1) =>
    let local_ipv4_addr := s.my_ipv4_addr
    let cxn_id : TcpConnectionId :=
      { loc := { address := s.my_ipv4_addr, port := local_port }
        remote := remote_endpoint }
    let isn := IsnGenerator.next s.isn_secret cxn_id
    let cxn : TcpConnection := { cxn_id := cxn_id }
    let prev := (assocInsert s1.active_connections remote_endpoint cxn).1
    let ac := (assocInsert s1.active_connections remote_endpoint cxn).2
    let s2 := { s1 with active_connections := ac }
    if prev.isSome then
      .panicked "assertion failed: active_connections.insert(..).is_none()" s2
    else
      let wasOpen := local_port ∈ s2.open_ports
      let s3 := { s2 with open_ports := setReplace s2.open_ports local_port }
      if wasOpen then
        .panicked "assertion failed: open_ports.replace(..).is_none()" s3
      else
        .ok { s3 with async_work := s3.async_work ++
          [(({} : TcpSegment)).srcIpv4Addr local_ipv4_addr
             |>.srcPort local_port
             |>.destIpv4Addr remote_endpoint.address
             |>.destPort remote_endpoint.port
             |>.seqNum isn
             |>.setMss DEFAULT_MSS
             |>.setSyn] }

/-- `TcpPeer::connect`: delegates to `start_active_connection`. -/
def TcpPeer.connect (s : TcpPeer) (remote_endpoint : Endpoint) : Outcome TcpPeer :=
  TcpPeer.start_active_connection s remote_endpoint

/-- Modelled from the spec: `WhenAny::poll` is not under `src/`; it advances
the enrolled units, removes a completed one, and returns `some` the instant
any single unit completes (first-completed-wins), or `none` when nothing is
enrolled. -/
def whenAnyPoll (_now : Nat) (ws : List TcpSegment) : Option Unit × List TcpSegment :=
  match ws with
  | [] => (none, ws)
  | _ :: rest => (some (), rest)

/-- `TcpPeer::poll` (the `Async<()>` impl): polls the aggregated async work. -/
def TcpPeer.poll (now : Nat) (s : TcpPeer) : Option Unit × TcpPeer :=
  let (r, ws) := whenAnyPoll now s.async_work
  (r, { s with async_work := ws })

/-- Rust `eui48::MacAddress::is_broadcast`: ff:ff:ff:ff:ff:ff as a 48-bit
numeric value. -/
def isBroadcastMac (m : Nat) : Bool := m == 281474976710655

/-- The EtherTypes the engine dispatches on (`ethernet2::EtherType`). -/
inductive EtherType where
  | Arp
  | Ipv4
deriving DecidableEq, Repr

/-- Modelled from the spec: `ethernet2::FrameHeader::ether_type` (not under
`src/`) decodes the 2-byte EtherType field, ARP = 0x0806 and IPv4 = 0x0800,
failing on anything else. -/
def etherTypeOf (raw : Nat) : Except Fail EtherType :=
  if raw == 2054 then .ok EtherType.Arp
  else if raw == 2048 then .ok EtherType.Ipv4
  else .error (Fail.Unsupported "unsupported ethernet frame type")

/-- Payload of an Ethernet frame as the engine's dispatch sees it. -/
inductive FramePayload where
  | arpMsg
  | ipv4Datagram (d : Ipv4Datagram)
deriving DecidableEq, Repr

/-- A parsed Ethernet frame: destination and source MAC addresses, the raw
EtherType field, and the payload (`ethernet2::Frame::attach` output). -/
structure FrameData where
  dest_addr : Nat
  src_addr : Nat
  ether_type_raw : Nat
  payload : FramePayload
deriving DecidableEq, Repr

/-- Modelled from the spec: the ARP peer (an excluded collaborator) holds a
cache of resolved addresses and a set of pending queries, each with the time
at which its resolution completes. -/
structure ArpState where
  cache : List (Nat × Nat)
  pendingQueries : List (Nat × Nat × Nat)
deriving DecidableEq, Repr

/-- Modelled from the spec: polling the ARP peer at time `now` completes every
pending resolution ready at or before `now` into the cache; the poll itself
stays pending forever (the permanently-pending poll contract). -/
def arpPollStep (now : Nat) (a : ArpState) : ArpState :=
  { cache := a.cache ++
      ((a.pendingQueries.filter (fun q => q.2.2 ≤ now)).map (fun q => (q.1, q.2.1)))
    pendingQueries := a.pendingQueries.filter (fun q => ¬ q.2.2 ≤ now) }

/-- Modelled from the spec: the IPv4 peer (an excluded collaborator) owns the
TCP peer, the per-descriptor queues of completed inbound handshakes used by
`tcp_accept`, and a snapshot of the ARP cache it consults when attempting
segment transmission during a poll. -/
structure Ipv4State where
  tcp : TcpPeer
  acceptQueues : List (Nat × List Nat)
  arpView : List (Nat × Nat)
deriving DecidableEq, Repr

/-- Modelled from the spec: polling the IPv4 peer polls the TCP peer's
aggregated async work once and records the ARP cache it consulted for
transmissions attempted in this tick. -/
def ipv4PollStep (now : Nat) (arp : ArpState) (i : Ipv4State) : Ipv4State :=
  { i with tcp := (TcpPeer.poll now i.tcp).2, arpView := arp.cache }

/-- Modelled from the spec: `tcp_accept` on a listening descriptor dequeues a
completed inbound handshake if one exists, returning `none` otherwise
(non-blocking poll semantics; on a valid listening descriptor it does not
error). -/
def tcpAccept (i : Ipv4State) (fd : Nat) : Option Nat :=
  match assocLookup i.acceptQueues fd with
  | some (x :: _) => some x
  | _ => none

/-- The state of `Engine2`: the runtime's logical clock and local link
address, the ARP and IPv4 peers, and the cached list of listening
descriptors. -/
structure Engine2 where
  clock : Nat
  local_link_addr : Nat
  arp : ArpState
  ipv4 : Ipv4State
  listening : List Nat
deriving DecidableEq, Repr

/-- Modelled from the spec: `arp::Peer::receive` (an excluded collaborator)
consumes an ARP frame and succeeds. -/
def arpReceive (e : Engine2) : Outcome Engine2 := .ok e

/-- Modelled from the spec: `ipv4::Peer::receive` (an excluded collaborator)
extracts the datagram from the frame and routes protocol 6 (TCP) to
`TcpPeer::receive`; UDP and ICMP are out of scope. -/
def ipv4Receive (e : Engine2) (f : FrameData) : Outcome Engine2 :=
  match f.payload with
  | .arpMsg => .err (Fail.Malformed "ipv4 frame does not carry a datagram") e
  | .ipv4Datagram d =>
    if d.protocol == 6 then
      match TcpPeer.receive e.ipv4.tcp d with
      | .ok t => .ok { e with ipv4 := { e.ipv4 with tcp := t } }
      | .err f t => .err f { e with ipv4 := { e.ipv4 with tcp := t } }
      | .panicked m t => .panicked m { e with ipv4 := { e.ipv4 with tcp := t } }
    else
      .err (Fail.Unsupported "unsupported ipv4 protocol") e

/-- `Engine2::receive`, translated from `engine.rs` lines 65-79: attach the
frame (`none` models bytes on which `Frame::attach` fails); reject frames not
addressed to the local link address, unless broadcast, with `Misdelivered`;
dispatch by EtherType to the ARP or IPv4 peer. -/
def Engine2.receive (e : Engine2) (bytes : Option FrameData) : Outcome Engine2 :=
  match bytes with
  | none => .err (Fail.Malformed "frame is too small to attach") e
  | some frame =>
    if e.local_link_addr != frame.dest_addr && !isBroadcastMac frame.dest_addr then
      .err Fail.Misdelivered e
    else
      match etherTypeOf frame.ether_type_raw with
      | .error f => .err f e
      | .ok EtherType.Arp => arpReceive e
      | .ok EtherType.Ipv4 => ipv4Receive e frame

/-- Events recorded while `advance_clock` runs, used to state the ordering
contract: the clock update, and each poll together with the waker its context
was built from. -/
inductive Waker where
  | noop
deriving DecidableEq, Repr

/-- Trace entries for one `advance_clock` call. -/
inductive TraceEv where
  | setClock (now : Nat)
  | pollArp (w : Waker)
  | pollIpv4 (w : Waker)
deriving DecidableEq, Repr

/-- Transport an outcome onto another state: used to model a caller whose own
state `t` is what the outcome of a callee determines (the callee's carried
state is not re-exported). -/
def Outcome.withState {σ τ : Type} (o : Outcome σ) (t : τ) : Outcome τ :=
  match o with
  | .ok _ => .ok t
  | .err f _ => .err f t
  | .panicked m _ => .panicked m t

/-- The state carried by `Outcome.withState` is the transported state. -/
theorem stateOf_withState {σ τ : Type} (o : Outcome σ) (t : τ) :
    stateOf (o.withState t) = t := by
  cases o <;> rfl

/-- The accept-draining loop at the end of `Engine2::advance_clock`: for each
listening descriptor, repeatedly call `tcp_accept`; a completed handshake hits
`todo!()` (a panic), `Ok(None)` breaks to the next descriptor. -/
def drainAccepts (i : Ipv4State) (fds : List Nat) : Outcome Ipv4State :=
  match fds with
  | [] => .ok i
  | fd :: rest =>
    match tcpAccept i fd with
    | some _ => .panicked "not yet implemented" i
    | none => drainAccepts i rest

/-- `Engine2::advance_clock`, translated from `engine.rs` lines 198-219:
update the runtime clock to `now`; poll the ARP peer, then the IPv4 peer, each
exactly once with a context built from the no-op waker (both polls stay
pending, so the `assert!(.. .is_pending())` calls succeed); finally drain
completed inbound connections on listening descriptors, where a completed
handshake hits `todo!()`.  The returned trace records the clock update and the
polls in execution order. -/
def Engine2.advance_clock (e : Engine2) (now : Nat) : Outcome Engine2 × List TraceEv :=
  let e1 := { e with clock := now }
  let arp2 := arpPollStep now e1.arp
  let ipv42 := ipv4PollStep now arp2 e1.ipv4
  let e2 := { e1 with arp := arp2, ipv4 := ipv42 }
  let tr := [TraceEv.setClock now, TraceEv.pollArp Waker.noop, TraceEv.pollIpv4 Waker.noop]
  ((drainAccepts e2.ipv4 e2.listening).withState e2, tr)

/-- The pool invariant of the TCP peer: no port occurs twice in the free pool,
and the pool is disjoint from the set of open ports. -/
def poolInv (s : TcpPeer) : Prop :=
  s.available_private_ports.Nodup ∧
    ∀ p ∈ s.available_private_ports, p ∉ s.open_ports

/-- Adding one to a value already reduced modulo 2^32 agrees with adding one
before reducing. -/
theorem mod32_add_one (a : Nat) :
    (a % 4294967296 + 1) % 4294967296 = (a + 1) % 4294967296 := by
  conv_rhs => rw [Nat.add_mod]

/-- Reducing twice modulo 2^32 is the same as reducing once. -/
theorem mod32_mod32 (a : Nat) : a % 4294967296 % 4294967296 = a % 4294967296 :=
  Nat.mod_mod_of_dvd a dvd_rfl

/-- Helper: on the not-open-port path (unicast source, nonzero ports,
payload below 2^32), `TcpPeer::receive` returns `Ok` and appends exactly the
RST reply segment, whatever the inbound RST flag is. -/
theorem receive_not_open_port_reply
    (s : TcpPeer) (d : Ipv4Datagram) (seg : TcpSegData)
    (hdec : d.payload = some seg)
    (hb : isBroadcastIp d.src_addr = false)
    (hm : isMulticastIp d.src_addr = false)
    (hu : isUnspecifiedIp d.src_addr = false)
    (hdp : seg.header.dest_port ≠ 0)
    (hopen : seg.header.dest_port ∉ s.open_ports)
    (hsp : seg.header.src_port ≠ 0)
    (hlen : seg.textLen < 4294967296) :
    TcpPeer.receive s d = .ok { s with async_work := s.async_work ++
        [{ dest_ipv4_addr := some d.src_addr,
           dest_port := some seg.header.src_port,
           src_port := some seg.header.dest_port,
           ack_num := (seg.header.seq_num + seg.textLen
             + (if seg.header.syn then 1 else 0)) % 4294967296,
           rst := true }] } := by
  unfold TcpPeer.receive TcpSegmentDecoder.try_from
  rw [hdec]
  simp only [hb, hm, hu, Bool.false_or, portFromRaw, beq_iff_eq, hdp, hopen, hsp,
    hlen, ite_true, ite_false, if_true, if_false, if_neg, not_false_eq_true,
    TcpSegment.destIpv4Addr, TcpSegment.destPort, TcpSegment.srcPort,
    TcpSegment.ackNum, TcpSegment.setRst]
  cases hsyn : seg.header.syn with
  | false =>
    simp only [hsyn, Bool.false_eq_true, if_false, ite_false, mod32_mod32, Nat.add_zero]
  | true =>
    simp only [hsyn, if_true, ite_true, Bool.false_eq_true, if_false, ite_false,
      mod32_mod32, mod32_add_one]

/-- Helper: an RST addressed to an open destination port from a unicast source
is swallowed: `receive` returns `Ok`, emits the `ConnectionRefused` effect and
enqueues no outbound segment. -/
theorem receive_open_port_rst_swallowed
    (s : TcpPeer) (d : Ipv4Datagram) (seg : TcpSegData)
    (hdec : d.payload = some seg)
    (hb : isBroadcastIp d.src_addr = false)
    (hm : isMulticastIp d.src_addr = false)
    (hu : isUnspecifiedIp d.src_addr = false)
    (hdp : seg.header.dest_port ≠ 0)
    (hopen : seg.header.dest_port ∈ s.open_ports)
    (hrst : seg.header.rst = true) :
    TcpPeer.receive s d
      = .ok { s with effects := s.effects ++ [Effect.tcpError TcpError.ConnectionRefused] } := by
  unfold TcpPeer.receive TcpSegmentDecoder.try_from
  rw [hdec]
  simp only [hb, hm, hu, Bool.false_or, portFromRaw, beq_iff_eq, hdp, hopen, hrst,
    ite_true, ite_false, if_true, if_false, Bool.false_eq_true, not_false_eq_true]

/-- C4: a decodable segment from a unicast source with a nonzero destination
port that is not open and a nonzero source port makes `TcpPeer::receive`
return `Ok`, create no connection state, and enqueue exactly one outbound RST
segment whose ACK number is the inbound sequence number plus the payload
length, plus one if SYN is set (mod 2^32). -/
theorem tcp_receive_unopened_port_sends_single_rst
    (s : TcpPeer) (d : Ipv4Datagram) (seg : TcpSegData)
    (hdec : d.payload = some seg)
    (hb : isBroadcastIp d.src_addr = false)
    (hm : isMulticastIp d.src_addr = false)
    (hu : isUnspecifiedIp d.src_addr = false)
    (hdp : seg.header.dest_port ≠ 0)
    (hopen : seg.header.dest_port ∉ s.open_ports)
    (hsp : seg.header.src_port ≠ 0)
    (_hrst : seg.header.rst = false)
    (hlen : seg.textLen < 4294967296) :
    TcpPeer.receive s d = .ok { s with async_work := s.async_work ++
        [{ dest_ipv4_addr := some d.src_addr,
           dest_port := some seg.header.src_port,
           src_port := some seg.header.dest_port,
           ack_num := (seg.header.seq_num + seg.textLen
             + (if seg.header.syn then 1 else 0)) % 4294967296,
           rst := true }] } ∧
      (stateOf (TcpPeer.receive s d)).connections = s.connections ∧
      (stateOf (TcpPeer.receive s d)).active_connections = s.active_connections ∧
      (stateOf (TcpPeer.receive s d)).open_ports = s.open_ports ∧
      (stateOf (TcpPeer.receive s d)).available_private_ports
        = s.available_private_ports ∧
      (stateOf (TcpPeer.receive s d)).async_work.length = s.async_work.length + 1 := by
  have hmain := receive_not_open_port_reply s d seg hdec hb hm hu hdp hopen hsp hlen
  refine ⟨hmain, ?_, ?_, ?_, ?_, ?_⟩ <;> rw [hmain] <;> simp [stateOf]

/-- A concrete inbound SYN segment used as the C4 witness input. -/
def c4Seg : TcpSegData :=
  { header := { src_port := 12345, dest_port := 80, seq_num := 1000,
                syn := true, rst := false },
    textLen := 5 }

/-- A concrete datagram carrying `c4Seg` from 10.0.0.2 to 10.0.0.1. -/
def c4Datagram : Ipv4Datagram :=
  { src_addr := 167772162, dest_addr := 167772161, protocol := 6,
    payload := some c4Seg }

/-- A concrete freshly constructed peer at 10.0.0.1 with one free port. -/
def c4Peer : TcpPeer := TcpPeer.new [49152] 167772161 0

/-- C4 witness: the theorem applied at a concrete closed-port SYN segment. -/
theorem tcp_receive_unopened_port_sends_single_rst_witness :
    TcpPeer.receive c4Peer c4Datagram = .ok { c4Peer with async_work :=
        [{ dest_ipv4_addr := some 167772162, dest_port := some 12345,
           src_port := some 80, ack_num := 1006, rst := true }] } := by
  have h := tcp_receive_unopened_port_sends_single_rst c4Peer c4Datagram c4Seg
    rfl rfl rfl rfl (by decide) (by decide) (by decide) rfl (by decide)
  rw [h.1]
  rfl

/-- A peer at 10.0.0.1 with no open ports, used for the C1 counterexample. -/
def c1Peer : TcpPeer := TcpPeer.new [49152] 167772161 0

/-- An inbound RST segment addressed to port 80, used for C1. -/
def c1Seg : TcpSegData :=
  { header := { src_port := 12345, dest_port := 80, seq_num := 1000,
                syn := false, rst := true },
    textLen := 0 }

/-- An inbound RST datagram to the not-open port 80, used for C1. -/
def c1Datagram : Ipv4Datagram :=
  { src_addr := 167772162, dest_addr := 167772161, protocol := 6,
    payload := some c1Seg }

/-- The RST reply segment the peer enqueues for `c1Datagram`. -/
def c1Reply : TcpSegment :=
  { dest_ipv4_addr := some 167772162, dest_port := some 12345,
    src_port := some 80, ack_num := 1000, rst := true }

/-- C1 counterexample: an inbound RST whose destination port is not open is
not swallowed and not reported as a connection-refused condition; instead the
peer responds with an outbound segment (exactly one RST is enqueued and no
effect is emitted). -/
theorem tcp_receive_closed_port_inbound_rst_answered_not_swallowed :
    (TcpPeer.receive c1Peer c1Datagram).isOk = true ∧
      (stateOf (TcpPeer.receive c1Peer c1Datagram)).effects = [] ∧
      (stateOf (TcpPeer.receive c1Peer c1Datagram)).async_work = [c1Reply] := by
  refine ⟨rfl, rfl, rfl⟩

/-- C1 amended: the RST-swallowing behaviour is attached to the open-port
branch, not the closed-port branch.  An inbound RST whose destination port is
open is swallowed and reported as a `ConnectionRefused` condition (never a raw
error), while a segment whose destination port is not open — an RST included —
elicits the outbound RST reply with ACK = seq + payload length (+ 1 if SYN). -/
theorem tcp_receive_rst_swallowed_only_on_open_port
    (s : TcpPeer) (d : Ipv4Datagram) (seg : TcpSegData)
    (hdec : d.payload = some seg)
    (hb : isBroadcastIp d.src_addr = false)
    (hm : isMulticastIp d.src_addr = false)
    (hu : isUnspecifiedIp d.src_addr = false)
    (hdp : seg.header.dest_port ≠ 0)
    (hrst : seg.header.rst = true) :
    (seg.header.dest_port ∈ s.open_ports →
      TcpPeer.receive s d
        = .ok { s with effects := s.effects
            ++ [Effect.tcpError TcpError.ConnectionRefused] }) ∧
    (seg.header.dest_port ∉ s.open_ports → seg.header.src_port ≠ 0 →
      seg.textLen < 4294967296 →
      TcpPeer.receive s d = .ok { s with async_work := s.async_work ++
        [{ dest_ipv4_addr := some d.src_addr,
           dest_port := some seg.header.src_port,
           src_port := some seg.header.dest_port,
           ack_num := (seg.header.seq_num + seg.textLen
             + (if seg.header.syn then 1 else 0)) % 4294967296,
           rst := true }] }) := by
  constructor
  · intro hopen
    exact receive_open_port_rst_swallowed s d seg hdec hb hm hu hdp hopen hrst
  · intro hopen hsp hlen
    exact receive_not_open_port_reply s d seg hdec hb hm hu hdp hopen hsp hlen

/-- The C1 peer with port 80 opened, used as witness input. -/
def c1PeerOpen : TcpPeer := { c1Peer with open_ports := [80] }

/-- C1 witness: the amended theorem applied to a peer with port 80 open
receiving a concrete RST, and to the same RST with port 80 not open. -/
theorem tcp_receive_rst_swallowed_only_on_open_port_witness :
    TcpPeer.receive c1PeerOpen c1Datagram
      = .ok { c1PeerOpen with effects := [Effect.tcpError TcpError.ConnectionRefused] } ∧
    TcpPeer.receive c1Peer c1Datagram = .ok { c1Peer with async_work := [c1Reply] } := by
  constructor
  · have h := tcp_receive_rst_swallowed_only_on_open_port c1PeerOpen c1Datagram c1Seg
      rfl rfl rfl rfl (by decide) rfl
    rw [h.1 (by decide)]
    rfl
  · have h := tcp_receive_rst_swallowed_only_on_open_port c1Peer c1Datagram c1Seg
      rfl rfl rfl rfl (by decide) rfl
    rw [h.2 (by decide) (by decide) (by decide)]
    rfl

/-- A peer at 10.0.0.1 with port 80 open, used for the C2 failing input. -/
def c2Peer : TcpPeer := { TcpPeer.new [49152] 167772161 0 with open_ports := [80] }

/-- A non-RST SYN segment to the open port 80, used for C2. -/
def c2Seg : TcpSegData :=
  { header := { src_port := 12345, dest_port := 80, seq_num := 1000,
                syn := true, rst := false },
    textLen := 0 }

/-- The datagram carrying `c2Seg`, used for C2. -/
def c2Datagram : Ipv4Datagram :=
  { src_addr := 167772162, dest_addr := 167772161, protocol := 6,
    payload := some c2Seg }

/-- C2: the code at the failing input.  A valid non-RST segment whose
destination port is open is never demultiplexed to a connection: the open-port
branch of `TcpPeer::receive` hits `unimplemented!()` and panics on this
attacker-controlled wire input. -/
theorem tcp_receive_open_port_non_rst_panics :
    TcpPeer.receive c2Peer c2Datagram = .panicked "not implemented" c2Peer := by
  rfl

/-- The remote endpoint 10.0.0.2:80 used for the C3 failing input. -/
def c3Remote : Endpoint := { address := 167772162, port := 80 }

/-- A fresh peer at 10.0.0.1 with two free private ports, used for C3. -/
def c3Peer : TcpPeer := TcpPeer.new [49152, 49153] 167772161 0

/-- C3: the code at the failing input.  The first `connect` to 10.0.0.2:80
succeeds; a second `connect` to the same remote does not return a typed
duplicate-connection error: it panics on the
`assert!(active_connections.insert(..).is_none())` assertion, and at the
moment of the panic the `active_connections` entry for the remote has already
been overwritten with the second connection (local port 49153 instead of
49152). -/
theorem tcp_connect_duplicate_remote_panics_and_overwrites :
    (TcpPeer.connect c3Peer c3Remote).isOk = true ∧
    assocLookup (stateOf (TcpPeer.connect c3Peer c3Remote)).active_connections c3Remote
      = some { cxn_id := { loc := { address := 167772161, port := 49152 },
                           remote := c3Remote } } ∧
    (TcpPeer.connect (stateOf (TcpPeer.connect c3Peer c3Remote)) c3Remote).isPanicked
      = true ∧
    assocLookup
        (stateOf (TcpPeer.connect (stateOf (TcpPeer.connect c3Peer c3Remote))
          c3Remote)).active_connections c3Remote
      = some { cxn_id := { loc := { address := 167772161, port := 49153 },
                           remote := c3Remote } } := by
  refine ⟨rfl, rfl, rfl, rfl⟩

/-- A peer at 10.0.0.1 with port 80 open, used for the C8 counterexample. -/
def c8Peer : TcpPeer := { TcpPeer.new [49152] 167772161 0 with open_ports := [80] }

/-- An RST with source port zero addressed to port 80, used for C8. -/
def c8Seg : TcpSegData :=
  { header := { src_port := 0, dest_port := 80, seq_num := 7,
                syn := false, rst := true },
    textLen := 0 }

/-- The datagram carrying `c8Seg`, used for C8. -/
def c8Datagram : Ipv4Datagram :=
  { src_addr := 167772162, dest_addr := 167772161, protocol := 6,
    payload := some c8Seg }

/-- C8 counterexample: a datagram with source port zero does not always fail
with `Malformed`: when its destination port is open (here an RST to open port
80), `receive` returns `Ok` — the source port is never examined on the
open-port path. -/
theorem tcp_receive_zero_source_port_on_open_port_is_ok :
    (TcpPeer.receive c8Peer c8Datagram).isOk = true := by
  rfl

/-- C8 amended: a broadcast, multicast or unspecified source address always
fails with `Malformed`, as does a zero destination port; a zero source port
fails with `Malformed` only when the destination port is not open.  In every
such case the peer state is returned unchanged, so no connection state is
created. -/
theorem tcp_receive_malformed_conditions
    (s : TcpPeer) (d : Ipv4Datagram) (seg : TcpSegData)
    (hdec : d.payload = some seg) :
    ((isBroadcastIp d.src_addr || isMulticastIp d.src_addr
        || isUnspecifiedIp d.src_addr) = true →
      TcpPeer.receive s d
        = .err (Fail.Malformed "only unicast addresses are supported by TCP") s) ∧
    (isBroadcastIp d.src_addr = false → isMulticastIp d.src_addr = false →
      isUnspecifiedIp d.src_addr = false → seg.header.dest_port = 0 →
      TcpPeer.receive s d = .err (Fail.Malformed "destination port is zero") s) ∧
    (isBroadcastIp d.src_addr = false → isMulticastIp d.src_addr = false →
      isUnspecifiedIp d.src_addr = false → seg.header.dest_port ≠ 0 →
      seg.header.dest_port ∉ s.open_ports → seg.header.src_port = 0 →
      TcpPeer.receive s d = .err (Fail.Malformed "source port is zero") s) := by
  refine ⟨?_, ?_, ?_⟩
  · intro hsrc
    unfold TcpPeer.receive TcpSegmentDecoder.try_from
    rw [hdec]
    simp only [hsrc, if_true, ite_true]
  · intro hb hm hu hdz
    unfold TcpPeer.receive TcpSegmentDecoder.try_from
    rw [hdec]
    simp only [hb, hm, hu, Bool.false_or, Bool.false_eq_true, if_false, ite_false,
      portFromRaw, beq_iff_eq, hdz, if_true, ite_true]
  · intro hb hm hu hdp hopen hsz
    unfold TcpPeer.receive TcpSegmentDecoder.try_from
    rw [hdec]
    simp only [hb, hm, hu, Bool.false_or, Bool.false_eq_true, if_false, ite_false,
      portFromRaw, beq_iff_eq, hdp, hopen, hsz, if_true, ite_true,
      not_false_eq_true]

/-- A broadcast-source datagram, used as C8 witness input. -/
def c8BroadcastDatagram : Ipv4Datagram :=
  { src_addr := 4294967295, dest_addr := 167772161, protocol := 6,
    payload := some { header := { src_port := 1, dest_port := 80, seq_num := 0,
                                  syn := false, rst := false },
                      textLen := 0 } }

/-- A zero-destination-port datagram, used as C8 witness input. -/
def c8ZeroDestDatagram : Ipv4Datagram :=
  { src_addr := 167772162, dest_addr := 167772161, protocol := 6,
    payload := some { header := { src_port := 1, dest_port := 0, seq_num := 0,
                                  syn := false, rst := false },
                      textLen := 0 } }

/-- A zero-source-port datagram to a not-open port, used as C8 witness input. -/
def c8ZeroSrcDatagram : Ipv4Datagram :=
  { src_addr := 167772162, dest_addr := 167772161, protocol := 6,
    payload := some { header := { src_port := 0, dest_port := 80, seq_num := 0,
                                  syn := false, rst := false },
                      textLen := 0 } }

/-- C8 witness: the amended theorem applied at a broadcast-source datagram, a
zero-destination-port datagram, and a zero-source-port datagram to a not-open
port. -/
theorem tcp_receive_malformed_conditions_witness :
    TcpPeer.receive c1Peer c8BroadcastDatagram
      = .err (Fail.Malformed "only unicast addresses are supported by TCP") c1Peer ∧
    TcpPeer.receive c1Peer c8ZeroDestDatagram
      = .err (Fail.Malformed "destination port is zero") c1Peer ∧
    TcpPeer.receive c1Peer c8ZeroSrcDatagram
      = .err (Fail.Malformed "source port is zero") c1Peer := by
  refine ⟨?_, ?_, ?_⟩
  · exact (tcp_receive_malformed_conditions c1Peer c8BroadcastDatagram
      { header := { src_port := 1, dest_port := 80, seq_num := 0,
                    syn := false, rst := false },
        textLen := 0 } rfl).1 rfl
  · exact (tcp_receive_malformed_conditions c1Peer c8ZeroDestDatagram
      { header := { src_port := 1, dest_port := 0, seq_num := 0,
                    syn := false, rst := false },
        textLen := 0 } rfl).2.1 rfl rfl rfl rfl
  · exact (tcp_receive_malformed_conditions c1Peer c8ZeroSrcDatagram
      { header := { src_port := 0, dest_port := 80, seq_num := 0,
                    syn := false, rst := false },
        textLen := 0 } rfl).2.2 rfl rfl rfl (by decide) (by decide) rfl

/-- The first component of `assocInsert` is exactly the previous binding of
the key, as returned by `assocLookup`. -/
theorem assocInsert_fst {α β : Type} [DecidableEq α] (m : List (α × β)) (k : α) (v : β) :
    (assocInsert m k v).1 = assocLookup m k := by
  induction m with
  | nil => rfl
  | cons hd tl ih =>
    obtain ⟨k', v'⟩ := hd
    by_cases h : k = k' <;> simp [assocInsert, assocLookup, h, ih]

/-- Helper: `connect` with an exhausted private-port pool fails with
`ResourceExhausted` and leaves the peer untouched. -/
theorem connect_exhausted (s : TcpPeer) (r : Endpoint)
    (h : s.available_private_ports = []) :
    TcpPeer.connect s r = .err (Fail.ResourceExhausted "no more private ports") s := by
  unfold TcpPeer.connect TcpPeer.start_active_connection TcpPeer.acquire_private_port
  rw [h]

/-- Helper: `connect` with a nonempty pool, a remote endpoint that has no
active connection, and a front port that is not open, succeeds and consumes
exactly the front port of the pool. -/
theorem connect_pops_front (s : TcpPeer) (r : Endpoint) (p : Nat) (rest : List Nat)
    (hp : s.available_private_ports = p :: rest)
    (hlook : assocLookup s.active_connections r = none)
    (hopen : p ∉ s.open_ports) :
    ∃ s2, TcpPeer.connect s r = .ok s2 ∧
      s2.available_private_ports = rest ∧
      s2.open_ports = s.open_ports ++ [p] ∧
      s2.active_connections
        = (assocInsert s.active_connections r
            { cxn_id := { loc := { address := s.my_ipv4_addr, port := p },
                          remote := r } }).2 := by
  unfold TcpPeer.connect TcpPeer.start_active_connection TcpPeer.acquire_private_port
  rw [hp]
  simp only [assocInsert_fst, hlook, Option.isSome_none, Bool.false_eq_true, if_false,
    ite_false, setReplace, hopen, not_false_eq_true]
  exact ⟨_, rfl, rfl, rfl, rfl⟩

/-- C6: the pool contract.  `acquire_private_port` pops the front of the free
queue and fails with `ResourceExhausted` exactly when the queue is empty;
`release_private_port` pushes the port to the back and fails at assertion
level on a non-private port; with an exhausted pool `connect` fails with
`ResourceExhausted`, and after releasing one private port exactly one more
`connect` succeeds (the next one fails with `ResourceExhausted` again). -/
theorem tcp_port_pool_contract :
    (∀ s : TcpPeer, s.available_private_ports = [] →
      TcpPeer.acquire_private_port s
        = .error (Fail.ResourceExhausted "no more private ports")) ∧
    (∀ (s : TcpPeer) (p : Nat) (rest : List Nat),
      s.available_private_ports = p :: rest →
      TcpPeer.acquire_private_port s
        = .ok (p, { s with available_private_ports := rest })) ∧
    (∀ (s : TcpPeer) (p : Nat), isPrivatePort p = true →
      TcpPeer.release_private_port s p
        = .ok { s with available_private_ports := s.available_private_ports ++ [p] }) ∧
    (∀ (s : TcpPeer) (p : Nat), isPrivatePort p = false →
      TcpPeer.release_private_port s p
        = .panicked "assertion failed: port.is_private()" s) ∧
    (∀ (s : TcpPeer) (r : Endpoint), s.available_private_ports = [] →
      TcpPeer.connect s r = .err (Fail.ResourceExhausted "no more private ports") s) ∧
    (∀ (s : TcpPeer) (p : Nat) (r : Endpoint),
      s.available_private_ports = [] → isPrivatePort p = true →
      assocLookup s.active_connections r = none → p ∉ s.open_ports →
      ∃ s1 s2, TcpPeer.release_private_port s p = .ok s1 ∧
        TcpPeer.connect s1 r = .ok s2 ∧
        ∀ r2 : Endpoint,
          TcpPeer.connect s2 r2
            = .err (Fail.ResourceExhausted "no more private ports") s2) := by
  refine ⟨?_, ?_, ?_, ?_, ?_, ?_⟩
  · intro s h
    unfold TcpPeer.acquire_private_port
    rw [h]
  · intro s p rest h
    unfold TcpPeer.acquire_private_port
    rw [h]
  · intro s p h
    unfold TcpPeer.release_private_port
    rw [h]
    rfl
  · intro s p h
    unfold TcpPeer.release_private_port
    rw [h]
    rfl
  · intro s r h
    exact connect_exhausted s r h
  · intro s p r hpool hpriv hlook hopen
    refine ⟨{ s with available_private_ports := s.available_private_ports ++ [p] },
      ?_⟩
    have hrel : TcpPeer.release_private_port s p
        = .ok { s with available_private_ports := s.available_private_ports ++ [p] } := by
      unfold TcpPeer.release_private_port
      rw [hpriv]
      rfl
    have hp1 : ({ s with available_private_ports := s.available_private_ports ++ [p] }
        : TcpPeer).available_private_ports = p :: [] := by
      simp [hpool]
    obtain ⟨s2, hc, hpool2, -, -⟩ :=
      connect_pops_front
        { s with available_private_ports := s.available_private_ports ++ [p] }
        r p [] hp1 hlook hopen
    exact ⟨s2, hrel, hc, fun r2 => connect_exhausted s2 r2 hpool2⟩

/-- An endpoint with an empty pool, used as C6 witness input. -/
def c6Peer : TcpPeer := TcpPeer.new [] 167772161 0

/-- C6 witness: the contract applied at concrete inputs — an empty pool, a
one-element pool, a private and a non-private port, and the
release-one-connect-once scenario. -/
theorem tcp_port_pool_contract_witness :
    TcpPeer.acquire_private_port c6Peer
      = .error (Fail.ResourceExhausted "no more private ports") ∧
    TcpPeer.acquire_private_port c3Peer
      = .ok (49152, { c3Peer with available_private_ports := [49153] }) ∧
    TcpPeer.release_private_port c6Peer 49200
      = .ok { c6Peer with available_private_ports := [49200] } ∧
    TcpPeer.release_private_port c6Peer 80
      = .panicked "assertion failed: port.is_private()" c6Peer ∧
    TcpPeer.connect c6Peer c3Remote
      = .err (Fail.ResourceExhausted "no more private ports") c6Peer ∧
    (∃ s1 s2, TcpPeer.release_private_port c6Peer 49200 = .ok s1 ∧
      TcpPeer.connect s1 c3Remote = .ok s2 ∧
      ∀ r2 : Endpoint,
        TcpPeer.connect s2 r2
          = .err (Fail.ResourceExhausted "no more private ports") s2) := by
  refine ⟨?_, ?_, ?_, ?_, ?_, ?_⟩
  · exact tcp_port_pool_contract.1 c6Peer rfl
  · exact tcp_port_pool_contract.2.1 c3Peer 49152 [49153] rfl
  · exact tcp_port_pool_contract.2.2.1 c6Peer 49200 (by decide)
  · exact tcp_port_pool_contract.2.2.2.1 c6Peer 80 (by decide)
  · exact tcp_port_pool_contract.2.2.2.2.1 c6Peer c3Remote rfl
  · exact tcp_port_pool_contract.2.2.2.2.2 c6Peer 49200 c3Remote rfl (by decide)
      rfl (by decide)

/-- A concrete engine at link address 1, used for the C5 counterexample. -/
def c5Engine : Engine2 :=
  { clock := 0, local_link_addr := 1,
    arp := { cache := [], pendingQueries := [] },
    ipv4 := { tcp := TcpPeer.new [49152] 167772161 0, acceptQueues := [],
              arpView := [] },
    listening := [] }

/-- A frame addressed to link address 2 (neither local nor broadcast). -/
def c5Frame : FrameData :=
  { dest_addr := 2, src_addr := 3, ether_type_raw := 2048,
    payload := FramePayload.ipv4Datagram c1Datagram }

/-- C5 counterexample: a misdelivered frame does not make `Engine2::receive`
return `Ok`; the error escapes to the caller as `Err(Misdelivered)`.  The same
holds for a malformed TCP datagram at `TcpPeer::receive`, which returns
`Err(Malformed ..)`. -/
theorem engine_receive_misdelivered_returns_error :
    (Engine2.receive c5Engine (some c5Frame)).isOk = false ∧
    Engine2.receive c5Engine (some c5Frame) = .err Fail.Misdelivered c5Engine ∧
    (TcpPeer.receive c1Peer c8BroadcastDatagram).isOk = false := by
  refine ⟨rfl, rfl, rfl⟩

/-- C5 amended: malformation and misdelivery are rejected with typed errors
that propagate to the caller of `receive` — they are neither panics nor
swallowed into `Ok`.  `Engine2::receive` returns `Err(Misdelivered)` for a
frame not addressed to the local link address (and not broadcast) and
`Err(Malformed ..)` for bytes that do not attach as a frame; `TcpPeer::receive`
returns `Err(Malformed ..)` for an undecodable TCP payload and for a
non-unicast source, in each case leaving the receiver state unchanged. -/
theorem receive_rejects_bad_input_with_typed_errors
    (e : Engine2) (f : FrameData) (s : TcpPeer) (d d' : Ipv4Datagram)
    (seg : TcpSegData)
    (hne : e.local_link_addr ≠ f.dest_addr)
    (hbm : isBroadcastMac f.dest_addr = false)
    (hnodec : d.payload = none)
    (hdec : d'.payload = some seg)
    (hsrc : (isBroadcastIp d'.src_addr || isMulticastIp d'.src_addr
      || isUnspecifiedIp d'.src_addr) = true) :
    Engine2.receive e (some f) = .err Fail.Misdelivered e ∧
    Engine2.receive e none = .err (Fail.Malformed "frame is too small to attach") e ∧
    TcpPeer.receive s d = .err (Fail.Malformed "failed to decode TCP segment") s ∧
    TcpPeer.receive s d' = .err (Fail.Malformed "only unicast addresses are supported by TCP") s := by
  refine ⟨?_, rfl, ?_, ?_⟩
  · unfold Engine2.receive
    simp only [bne_iff_ne, ne_eq, hne, not_false_eq_true, hbm, Bool.not_false,
      Bool.and_true, decide_True, Bool.true_and, if_true, ite_true, decide_not]
  · unfold TcpPeer.receive TcpSegmentDecoder.try_from
    rw [hnodec]
  · unfold TcpPeer.receive TcpSegmentDecoder.try_from
    rw [hdec]
    simp only [hsrc, if_true, ite_true]

/-- A datagram with an undecodable TCP payload, used as C5 witness input. -/
def c5BadDatagram : Ipv4Datagram :=
  { src_addr := 167772162, dest_addr := 167772161, protocol := 6,
    payload := none }

/-- C5 witness: the amended theorem applied at the concrete misdelivered
frame, unattachable bytes, undecodable datagram and broadcast-source
datagram. -/
theorem receive_rejects_bad_input_with_typed_errors_witness :
    Engine2.receive c5Engine (some c5Frame) = .err Fail.Misdelivered c5Engine ∧
    Engine2.receive c5Engine none
      = .err (Fail.Malformed "frame is too small to attach") c5Engine ∧
    TcpPeer.receive c1Peer c5BadDatagram
      = .err (Fail.Malformed "failed to decode TCP segment") c1Peer ∧
    TcpPeer.receive c1Peer c8BroadcastDatagram
      = .err (Fail.Malformed "only unicast addresses are supported by TCP") c1Peer := by
  exact receive_rejects_bad_input_with_typed_errors c5Engine c5Frame c1Peer
    c5BadDatagram c8BroadcastDatagram
    { header := { src_port := 1, dest_port := 80, seq_num := 0,
                  syn := false, rst := false },
      textLen := 0 }
    (by decide) rfl rfl rfl rfl

/-- C7: `advance_clock` first sets the logical clock to `now`, then polls the
ARP peer and then the IPv4/TCP peer, each exactly once, both with the no-op
waker; the IPv4/TCP poll runs against the ARP state produced by this tick's
ARP poll, so resolutions completing in this tick are visible to TCP
transmission attempts in the same tick (the recorded `arpView` is the
post-poll ARP cache). -/
theorem engine_advance_clock_order (e : Engine2) (now : Nat) :
    (Engine2.advance_clock e now).2
      = [TraceEv.setClock now, TraceEv.pollArp Waker.noop,
         TraceEv.pollIpv4 Waker.noop] ∧
    (Engine2.advance_clock e now).2.count (TraceEv.pollArp Waker.noop) = 1 ∧
    (Engine2.advance_clock e now).2.count (TraceEv.pollIpv4 Waker.noop) = 1 ∧
    (stateOf (Engine2.advance_clock e now).1).clock = now ∧
    (stateOf (Engine2.advance_clock e now).1).arp = arpPollStep now e.arp ∧
    (stateOf (Engine2.advance_clock e now).1).ipv4
      = ipv4PollStep now (arpPollStep now e.arp) e.ipv4 ∧
    (stateOf (Engine2.advance_clock e now).1).ipv4.arpView
      = (arpPollStep now e.arp).cache := by
  unfold Engine2.advance_clock
  refine ⟨rfl, by simp [List.count_cons], by simp [List.count_cons], ?_, ?_, ?_, ?_⟩ <;>
    simp [stateOf_withState, ipv4PollStep]

/-- A `TcpPeer` record update that only rewrites `async_work` to the value it
already has is the identity. -/
theorem TcpPeer.eta_async_work (t : TcpPeer) (h : t.async_work = []) :
    ({ t with async_work := [] } : TcpPeer) = t := by
  cases t
  simp only at h
  rw [← h]

/-- C9: with no pending async work (the TCP peer's `async_work` is empty and
no descriptor is listening), `advance_clock` is a no-op tick: it returns
normally and every piece of connection state — the connection tables, the
open-port set and the free-port pool — is unchanged. -/
theorem engine_advance_clock_noop_tick (e : Engine2) (now : Nat)
    (hw : e.ipv4.tcp.async_work = [])
    (hl : e.listening = []) :
    ∃ e', (Engine2.advance_clock e now).1 = .ok e' ∧
      e'.ipv4.tcp = e.ipv4.tcp ∧
      e'.ipv4.tcp.connections = e.ipv4.tcp.connections ∧
      e'.ipv4.tcp.active_connections = e.ipv4.tcp.active_connections ∧
      e'.ipv4.tcp.open_ports = e.ipv4.tcp.open_ports ∧
      e'.ipv4.tcp.available_private_ports = e.ipv4.tcp.available_private_ports ∧
      e'.ipv4.tcp.listening_on_ports = e.ipv4.tcp.listening_on_ports := by
  have htcp : (TcpPeer.poll now e.ipv4.tcp).2 = e.ipv4.tcp := by
    unfold TcpPeer.poll whenAnyPoll
    rw [hw]
    exact TcpPeer.eta_async_work e.ipv4.tcp hw
  unfold Engine2.advance_clock
  rw [hl]
  refine ⟨_, rfl, ?_, ?_, ?_, ?_, ?_, ?_⟩ <;>
    simp [ipv4PollStep, htcp, Outcome.withState, drainAccepts]

/-- A quiescent engine, used as C9 witness input. -/
def c9Engine : Engine2 :=
  { clock := 0, local_link_addr := 1,
    arp := { cache := [], pendingQueries := [] },
    ipv4 := { tcp := TcpPeer.new [49152] 167772161 0, acceptQueues := [],
              arpView := [] },
    listening := [] }

/-- C9 witness: the no-op tick theorem applied to a concrete quiescent
engine. -/
theorem engine_advance_clock_noop_tick_witness :
    ∃ e', (Engine2.advance_clock c9Engine 5).1 = .ok e' ∧
      e'.ipv4.tcp = c9Engine.ipv4.tcp ∧
      e'.ipv4.tcp.connections = c9Engine.ipv4.tcp.connections ∧
      e'.ipv4.tcp.active_connections = c9Engine.ipv4.tcp.active_connections ∧
      e'.ipv4.tcp.open_ports = c9Engine.ipv4.tcp.open_ports ∧
      e'.ipv4.tcp.available_private_ports
        = c9Engine.ipv4.tcp.available_private_ports ∧
      e'.ipv4.tcp.listening_on_ports = c9Engine.ipv4.tcp.listening_on_ports :=
  engine_advance_clock_noop_tick c9Engine 5 rfl rfl

/-- Helper: `TcpPeer::receive` never modifies the free-port pool or the set of
open ports, in any of its branches (including errors and the
`unimplemented!()` panic). -/
theorem receive_ports_unchanged (s : TcpPeer) (d : Ipv4Datagram) :
    (stateOf (TcpPeer.receive s d)).available_private_ports
        = s.available_private_ports ∧
      (stateOf (TcpPeer.receive s d)).open_ports = s.open_ports := by
  cases hd : d.payload with
  | none => simp [TcpPeer.receive, TcpSegmentDecoder.try_from, hd, stateOf]
  | some seg =>
    simp only [TcpPeer.receive, TcpSegmentDecoder.try_from, hd]
    by_cases hb : (isBroadcastIp d.src_addr || isMulticastIp d.src_addr
        || isUnspecifiedIp d.src_addr) = true
    · simp [hb, stateOf]
    · simp only [hb, Bool.false_eq_true, if_false, ite_false]
      rcases hdp : portFromRaw seg.header.dest_port with _ | lp
      · simp [stateOf]
      · by_cases hin : lp ∈ s.open_ports
        · by_cases hr : seg.header.rst = true
          · simp [hin, hr, stateOf]
          · simp [hin, hr, stateOf]
        · rcases hsp : portFromRaw seg.header.src_port with _ | rp
          · simp [hin, stateOf]
          · by_cases hlen : seg.textLen < 4294967296
            · simp [hin, hlen, stateOf]
            · simp [hin, hlen, stateOf]

/-- Helper: `start_active_connection` preserves the pool invariant in every
branch: the acquired port leaves the pool, and it enters `open_ports` only
when it was not already there. -/
theorem start_active_connection_preserves_poolInv (s : TcpPeer) (r : Endpoint)
    (h : poolInv s) : poolInv (stateOf (TcpPeer.start_active_connection s r)) := by
  obtain ⟨hnd, hdisj⟩ := h
  unfold TcpPeer.start_active_connection TcpPeer.acquire_private_port
  rcases hp : s.available_private_ports with _ | ⟨p, rest⟩
  · exact ⟨by simpa [stateOf] using (hp ▸ hnd), by simpa [stateOf] using hdisj⟩
  · have hnd' : (p :: rest).Nodup := hp ▸ hnd
    have hpnotrest : p ∉ rest := (List.nodup_cons.mp hnd').1
    have hndrest : rest.Nodup := (List.nodup_cons.mp hnd').2
    have hdisjrest : ∀ q ∈ rest, q ∉ s.open_ports := fun q hq =>
      hdisj q (hp ▸ List.mem_cons_of_mem _ hq)
    have hpopen : p ∉ s.open_ports := hdisj p (hp ▸ List.mem_cons_self _ _)
    dsimp only
    by_cases h1 : (assocInsert s.active_connections r
        { cxn_id := { loc := { address := s.my_ipv4_addr, port := p },
                      remote := r } }).1.isSome = true
    · rw [if_pos h1]
      exact ⟨by simpa [stateOf] using hndrest, by simpa [stateOf] using hdisjrest⟩
    · rw [if_neg h1, if_neg hpopen]
      have hrepl : setReplace s.open_ports p = s.open_ports ++ [p] := by
        simp [setReplace, hpopen]
      refine ⟨by simpa [stateOf] using hndrest, fun q hq => ?_⟩
      simp only [stateOf, hrepl] at hq ⊢
      intro hmem
      rcases List.mem_append.mp hmem with hm | hm
      · exact hdisjrest q hq hm
      · exact hpnotrest (List.mem_singleton.mp hm ▸ hq)

/-- Helper: a successful `acquire_private_port` preserves the pool invariant
(the popped port simply leaves the pool). -/
theorem acquire_preserves_poolInv (s s' : TcpPeer) (p : Nat) (h : poolInv s)
    (ha : TcpPeer.acquire_private_port s = .ok (p, s')) : poolInv s' := by
  obtain ⟨hnd, hdisj⟩ := h
  unfold TcpPeer.acquire_private_port at ha
  rcases hp : s.available_private_ports with _ | ⟨q, rest⟩ <;> rw [hp] at ha
  · cases ha
  · cases ha
    have hnd' : (p :: rest).Nodup := hp ▸ hnd
    exact ⟨(List.nodup_cons.mp hnd').2,
      fun x hx => hdisj x (hp ▸ List.mem_cons_of_mem _ hx)⟩

/-- Helper: `release_private_port` preserves the pool invariant when handed a
port that is in neither the pool nor the open set (i.e. a port that is
genuinely becoming private again). -/
theorem release_preserves_poolInv (s : TcpPeer) (p : Nat) (h : poolInv s)
    (hnp : p ∉ s.available_private_ports) (hno : p ∉ s.open_ports) :
    poolInv (stateOf (TcpPeer.release_private_port s p)) := by
  obtain ⟨hnd, hdisj⟩ := h
  unfold TcpPeer.release_private_port
  by_cases hpr : isPrivatePort p = true
  · rw [if_pos hpr]
    refine ⟨?_, fun q hq => ?_⟩
    · simp only [stateOf]
      rw [List.nodup_append]
      exact ⟨hnd, List.nodup_singleton p, by simpa [List.disjoint_singleton] using hnp⟩
    · simp only [stateOf] at hq ⊢
      rcases List.mem_append.mp hq with hm | hm
      · exact hdisj q hm
      · exact List.mem_singleton.mp hm ▸ hno
  · rw [if_neg hpr]
    exact ⟨by simpa [stateOf] using hnd, by simpa [stateOf] using hdisj⟩

/-- C10: the freshly constructed free-port pool is a permutation of the ports
`first_private_port .. 65534` — each private port occurs, none occurs twice
(`Nodup`), and 65535 is never in the pool — and every peer operation
(`receive`, `start_active_connection`/`connect`, `acquire_private_port`,
`release_private_port` on a genuinely released port, and `poll`) preserves the
invariant that no port occurs twice in the pool and that the pool is disjoint
from the open-port set. -/
theorem tcp_port_pool_invariants :
    (∀ (shuffled : List Nat) (addr secret : Nat),
      shuffled.Perm initialPrivatePorts →
      ((TcpPeer.new shuffled addr secret).available_private_ports.Nodup ∧
       (∀ q, q ∈ (TcpPeer.new shuffled addr secret).available_private_ports ↔
          first_private_port ≤ q ∧ q < 65535) ∧
       65535 ∉ (TcpPeer.new shuffled addr secret).available_private_ports)) ∧
    (∀ (s : TcpPeer) (d : Ipv4Datagram), poolInv s →
      poolInv (stateOf (TcpPeer.receive s d))) ∧
    (∀ (s : TcpPeer) (r : Endpoint), poolInv s →
      poolInv (stateOf (TcpPeer.start_active_connection s r))) ∧
    (∀ (s s' : TcpPeer) (p : Nat), poolInv s →
      TcpPeer.acquire_private_port s = .ok (p, s') → poolInv s') ∧
    (∀ (s : TcpPeer) (p : Nat), poolInv s → p ∉ s.available_private_ports →
      p ∉ s.open_ports → poolInv (stateOf (TcpPeer.release_private_port s p))) ∧
    (∀ (now : Nat) (s : TcpPeer), poolInv s → poolInv (TcpPeer.poll now s).2) := by
  refine ⟨?_, ?_, ?_, ?_, ?_, ?_⟩
  · intro shuffled addr secret hperm
    refine ⟨?_, ?_, ?_⟩
    · exact hperm.symm.nodup
        (List.nodup_range' first_private_port (65535 - first_private_port))
    · intro q
      rw [show (TcpPeer.new shuffled addr secret).available_private_ports
          = shuffled from rfl, hperm.mem_iff, initialPrivatePorts,
        List.mem_range'_1]
      unfold first_private_port
      omega
    · intro hmem
      rw [show (TcpPeer.new shuffled addr secret).available_private_ports
          = shuffled from rfl, hperm.mem_iff, initialPrivatePorts,
        List.mem_range'_1] at hmem
      omega
  · intro s d h
    obtain ⟨h1, h2⟩ := receive_ports_unchanged s d
    exact ⟨h1 ▸ h.1, fun q hq => (h2 ▸ h.2 q (h1 ▸ hq) : _)⟩
  · exact start_active_connection_preserves_poolInv
  · exact fun s s' p h ha => acquire_preserves_poolInv s s' p h ha
  · exact release_preserves_poolInv
  · intro now s h
    unfold TcpPeer.poll
    exact ⟨h.1, h.2⟩

/-- C10 witness: the invariant theorem applied at concrete inputs — the
unshuffled pool itself (a permutation of itself), a receive call, a connect
call, a pop, a release of a fresh private port, and a poll. -/
theorem tcp_port_pool_invariants_witness :
    (TcpPeer.new initialPrivatePorts 1 0).available_private_ports.Nodup ∧
    (65535 ∉ (TcpPeer.new initialPrivatePorts 1 0).available_private_ports) ∧
    poolInv (stateOf (TcpPeer.receive c4Peer c4Datagram)) ∧
    poolInv (stateOf (TcpPeer.start_active_connection c3Peer c3Remote)) ∧
    poolInv { c3Peer with available_private_ports := [49153] } ∧
    poolInv (stateOf (TcpPeer.release_private_port c6Peer 49200)) ∧
    poolInv (TcpPeer.poll 3 c3Peer).2 :=
  ⟨(tcp_port_pool_invariants.1 initialPrivatePorts 1 0 (List.Perm.refl _)).1,
   (tcp_port_pool_invariants.1 initialPrivatePorts 1 0 (List.Perm.refl _)).2.2,
   tcp_port_pool_invariants.2.1 c4Peer c4Datagram ⟨by decide, by decide⟩,
   tcp_port_pool_invariants.2.2.1 c3Peer c3Remote ⟨by decide, by decide⟩,
   tcp_port_pool_invariants.2.2.2.1 c3Peer
     { c3Peer with available_private_ports := [49153] } 49152
     ⟨by decide, by decide⟩ rfl,
   tcp_port_pool_invariants.2.2.2.2.1 c6Peer 49200 ⟨by decide, by decide⟩
     (by decide) (by decide),
   tcp_port_pool_invariants.2.2.2.2.2 3 c3Peer ⟨by decide, by decide⟩⟩

/-- C7 witness: the ordering theorem applied to a concrete engine and tick. -/
theorem engine_advance_clock_order_witness :
    (Engine2.advance_clock c9Engine 7).2
      = [TraceEv.setClock 7, TraceEv.pollArp Waker.noop,
         TraceEv.pollIpv4 Waker.noop] ∧
    (stateOf (Engine2.advance_clock c9Engine 7).1).clock = 7 ∧
    (stateOf (Engine2.advance_clock c9Engine 7).1).arp
      = arpPollStep 7 c9Engine.arp :=
  ⟨(engine_advance_clock_order c9Engine 7).1,
   (engine_advance_clock_order c9Engine 7).2.2.2.1,
   (engine_advance_clock_order c9Engine 7).2.2.2.2.1⟩
